import Mathlib

/-!
Verification of the goal-game core: the scoring and goal-lifecycle resolver,
the game-state machine, and the temporal intensity engine, as implemented in
the dashboard handlers (`handleCompleteGoal`, `handleMissedGoals`), the
database triggers fired by their updates (`process_missed_goal` installed as
BEFORE UPDATE on goals, and the streak trigger
`update_streak_on_goal_complete`), the game loop hook
(`calculateIntensity`, `calculateTimeToEOD`, the threat-level computation)
and the game strategy (`getGameState`).

Modelling conventions:
* instants are integers, milliseconds since the epoch, in one implicit
  timezone; calendar days are obtained by flooring (`Int` division by
  `msPerDay` is Euclidean, which floors for a positive divisor, exactly the
  calendar floor);
* a `DATE` column value is the integer day index (its midnight instant is
  the index times `msPerDay`); a `TIME` column value is milliseconds since
  midnight;
* JavaScript `NaN` arising from `Number(...)` on a non-numeric string and
  from the resulting `Invalid Date` is modelled by `Option.none`; every
  ordered comparison against `none` is `false`, exactly the JavaScript
  semantics of comparisons involving `NaN`;
* floating-point arithmetic of the intensity engine is modelled over `ℚ`;
  every constant involved is exactly representable in the model and no
  branch decision in the source depends on rounding.
-/

namespace GoalGame

/-- Milliseconds in a calendar day. -/
def msPerDay : Int := 24 * 60 * 60 * 1000

/-- Milliseconds in an hour. -/
def msPerHour : Int := 60 * 60 * 1000

/-- The instant `23:59:59.000` within a day, in milliseconds since midnight:
the hard-coded end-of-day used by `setHours(23, 59, 59)` on a value whose
millisecond component is zero. -/
def endOfDayMs : Int := 23 * 3600000 + 59 * 60000 + 59 * 1000

/-- Goal type column: `goal_type IN ('daily', 'long_term')`. -/
inductive GoalType
  | daily
  | long_term
  deriving DecidableEq, Repr

/-- A goal record, restricted to the fields the core reads and writes.
`dueDate` is a day index, `dueTime` milliseconds since midnight,
`createdAt` an instant. -/
structure Goal where
  goalType : GoalType
  dueDate : Option Int
  dueTime : Option Int
  createdAt : Int
  completed : Bool
  completedAt : Option Int
  pointsEarned : Int
  aiPointsEarned : Int
  deriving DecidableEq, Repr

/-- The profile fields the core reads and writes. `lastGoalDate` is a day
index. -/
structure Profile where
  totalPoints : Int
  aiPoints : Int
  dayEndTime : Option String
  currentStreak : Int
  longestStreak : Int
  lastGoalDate : Option Int
  deriving DecidableEq, Repr

/-- The dashboard's in-memory state that the handlers mutate through the
persistence layer: the user's goals and the profile row. -/
structure DashboardState where
  goals : List Goal
  profile : Profile
  deriving DecidableEq, Repr

/-- Outcome classification of a completion, one constructor per distinct
message/point branch of `handleCompleteGoal`: `early` is the
"Early completion!" branch, `onTime` covers the "Task completed!",
"On-time completion!" and "Goal achieved!" branches, `late` the
"Late completion!" branch, and `noDeadline` the final
"Goal completed!" branch for a goal with no due date. -/
inductive Outcome
  | early
  | onTime
  | late
  | noDeadline
  deriving DecidableEq, Repr

/-- The triple a completion resolution produces: the user's point delta, the
AI's point delta, and the outcome classification. -/
structure CompletionResult where
  userPoints : Int
  aiPoints : Int
  outcome : Outcome
  deriving DecidableEq, Repr

/-- The scoring decision inside `handleCompleteGoal` (Dashboard): given the
goal and the completion instant `now`, the point split and outcome. The
branch structure follows the source exactly: the `daily` branch is checked
first regardless of `due_date`; for a daily goal with a due time the
boundary is today's due time (`now`'s calendar day); for a long-term goal
with both date and time the boundary is that exact instant; with a date
only, `dueDate.setHours(23, 59, 59)` on the parsed midnight gives
`endOfDayMs` past midnight and the comparison is `now <= dueDate`; with no
date the goal earns 10 points unconditionally. -/
def handleCompleteGoal (g : Goal) (now : Int) : CompletionResult :=
  match g.goalType with
  | .daily =>
    match g.dueTime with
    | some t =>
      if now < now / msPerDay * msPerDay + t then ⟨20, -5, .early⟩
      else ⟨5, 5, .onTime⟩
    | none => ⟨5, 5, .onTime⟩
  | .long_term =>
    match g.dueDate, g.dueTime with
    | some d, some t =>
      if now < d * msPerDay + t then ⟨20, -5, .early⟩
      else ⟨10, 0, .onTime⟩
    | some d, none =>
      if now ≤ d * msPerDay + endOfDayMs then ⟨10, 0, .onTime⟩
      else ⟨5, 5, .late⟩
    | none, _ => ⟨10, 0, .noDeadline⟩

/-- Reference definition transcribed from the specification's completion
table (section 4.3), for the refinement theorem: one row per listed
configuration, strict `<` on the boundary instant for "early" so the
boundary instant itself falls in the non-early branch. The table does not
cover a long-term goal with a due time but no due date, so that
configuration is `none`. "End-of-day on the dueDate" is the implicit
`23:59:59` boundary, since the spec's `resolveCompletion` takes no
configured day-end parameter. -/
def resolveCompletionSpec (g : Goal) (now : Int) : Option CompletionResult :=
  match g.goalType, g.dueDate, g.dueTime with
  | .daily, _, some t =>
    some (if now < now / msPerDay * msPerDay + t then ⟨20, -5, .early⟩
          else ⟨5, 5, .onTime⟩)
  | .daily, _, none => some ⟨5, 5, .onTime⟩
  | .long_term, some d, some t =>
    some (if now < d * msPerDay + t then ⟨20, -5, .early⟩
          else ⟨10, 0, .onTime⟩)
  | .long_term, some d, none =>
    some (if now ≤ d * msPerDay + endOfDayMs then ⟨10, 0, .onTime⟩
          else ⟨5, 5, .late⟩)
  | .long_term, none, some _ => none
  | .long_term, none, none => some ⟨10, 0, .noDeadline⟩

/-- Value of one decimal digit character, `none` otherwise. -/
def digitVal (c : Char) : Option Nat :=
  if '0' ≤ c ∧ c ≤ '9' then some (c.toNat - 48) else none

/-- JavaScript `Number(s)` on the strings relevant here: the empty string
coerces to `0`, a string of decimal digits to its value, and any other
string to `NaN` (modelled `none`). -/
def jsToNumber (s : List Char) : Option Int :=
  if s.isEmpty then some 0
  else (s.mapM digitVal).map (fun ds => ((ds.foldl (fun a d => a * 10 + d) 0 : Nat) : Int))

/-- Model of `String.prototype.split(":")` on the underlying character list. -/
def splitOnColon (s : List Char) : List (List Char) :=
  match s with
  | [] => [[]]
  | c :: rest =>
    let r := splitOnColon rest
    if c = ':' then [] :: r
    else
      match r with
      | hd :: tl => (c :: hd) :: tl
      | [] => [[c]]

/-- The `"HH:MM"` day-boundary parse: `dayEndTime.split(":").map(Number)`
destructured into hour and minute. A missing second component is
`undefined`, which `Number` coerces to `NaN` (`none`). -/
def parseDayBoundary (s : String) : Option Int × Option Int :=
  match splitOnColon s.data with
  | [] => (none, none)
  | [h] => (jsToNumber h, none)
  | h :: m :: _ => (jsToNumber h, jsToNumber m)

/-- JavaScript `d.setHours(h, m, 0, 0)` on a date holding instant `t`: midnight of
`t`'s calendar day plus the (possibly out-of-range, JavaScript rolls them
over) hour and minute. A `NaN` component makes the date invalid (`none`). -/
def setTimeOfDay (t : Int) (hm : Option Int × Option Int) : Option Int :=
  match hm with
  | (some h, some m) => some (t / msPerDay * msPerDay + h * 3600000 + m * 60000)
  | _ => none

/-- The function `calculateTimeToEOD` from `useGameLoop`: today's boundary instant,
rolled to the next calendar day when it is not strictly after `now`, then
`Math.max(0, eod - now)`. An invalid boundary date compares `false` (no
roll) and the subtraction and `max` propagate `NaN` (`none`). -/
def calculateTimeToEOD (dayEndTime : String) (now : Int) : Option Int :=
  match setTimeOfDay now (parseDayBoundary dayEndTime) with
  | none => none
  | some e =>
    let e2 := if e ≤ now then e + msPerDay else e
    some (max 0 (e2 - now))

/-- Deadline computed by the current Dashboard's missed-goal filter: the
configured day-end applied to the creation date for a daily goal; the exact
due instant for a long-term goal with date and time; the day-end applied to
the due date with a date only; no deadline (`none`) otherwise. An invalid
parsed day-end makes the dependent deadlines invalid (`none`). -/
def missedDeadline (dayEnd : Option Int × Option Int) (g : Goal) : Option Int :=
  match g.goalType with
  | .daily => setTimeOfDay g.createdAt dayEnd
  | .long_term =>
    match g.dueDate with
    | some d =>
      match g.dueTime with
      | some t => some (d * msPerDay + t)
      | none => setTimeOfDay (d * msPerDay) dayEnd
    | none => none

/-- The current Dashboard's missed-goal predicate: an already-completed goal
is filtered out, otherwise the goal is missed when `now` is strictly after
its deadline; a goal with no (or an invalid) deadline is never missed, as
every JavaScript comparison against `NaN` is `false`. -/
def isMissed (dayEnd : Option Int × Option Int) (now : Int) (g : Goal) : Bool :=
  if g.completed then false
  else
    match missedDeadline dayEnd g with
    | some dl => decide (now > dl)
    | none => false

/-- The database trigger function `process_missed_goal`, installed by
`check_missed_goal_trigger` as BEFORE UPDATE on every `goals` row: a row
arriving already completed passes through unchanged with no award;
otherwise the deadline is recomputed server-side — the user's
`day_end_time` (`COALESCE` default `23:59:00`, the same boundary as the
dashboard's `"23:59"`, modelled by the same parsed pair at minute
resolution) on the creation date for a daily goal, the exact due instant
with date and time, the day-end on the due date with a date only, and no
deadline otherwise — and when `NOW()` is strictly after it the stored row
becomes completed at `now` with `points_earned = 0`,
`ai_points_earned = 15`, and the profile's AI points gain 15. The result is
the stored row and that AI-point increment. -/
def process_missed_goal (dayEnd : Option Int × Option Int) (now : Int) (g : Goal) :
    Goal × Int :=
  if g.completed then (g, 0)
  else
    match missedDeadline dayEnd g with
    | some dl =>
      if now > dl then
        ({ g with completed := true, completedAt := some now,
                  pointsEarned := 0, aiPointsEarned := 15 }, 15)
      else (g, 0)
    | none => (g, 0)

/-- The current Dashboard's `handleMissedGoals` for a given parsed day-end:
filter the missed goals; when none, nothing happens and no toast is shown;
otherwise each missed goal receives an `updated_at` touch — an update whose
only effect on modelled state is firing `check_missed_goal_trigger`, which
stores the row `process_missed_goal` returns and applies its AI-point
increment to the profile — and the toast reports `missedGoals.length * 15`
AI points. -/
def handleMissedGoalsCore (dayEnd : Option Int × Option Int) (now : Int)
    (s : DashboardState) : DashboardState × Option Int :=
  let missed := s.goals.filter (isMissed dayEnd now)
  if missed.length = 0 then (s, none)
  else
    ({ goals := s.goals.map (fun g =>
         if isMissed dayEnd now g then (process_missed_goal dayEnd now g).1 else g)
       profile := { s.profile with
         aiPoints := s.profile.aiPoints
           + (missed.map (fun g => (process_missed_goal dayEnd now g).2)).sum }
     }, some (missed.length * 15))

/-- The current Dashboard's `handleMissedGoals`: the sweep core run with the
parsed configured `day_end_time`, defaulting to `"23:59"` when absent. -/
def handleMissedGoals (now : Int) (s : DashboardState) : DashboardState × Option Int :=
  handleMissedGoalsCore (parseDayBoundary (s.profile.dayEndTime.getD ("23:59"))) now s

/-- Deadline computed by the earlier Dashboard revision's missed-goal
filter: hard-coded `setHours(23, 59, 59)` — which keeps the millisecond
component of the mutated date — on the creation date for a daily goal and on
the due date for a long-term goal without a due time. -/
def missedDeadlineLegacy (g : Goal) : Option Int :=
  match g.goalType with
  | .daily => some (g.createdAt / msPerDay * msPerDay + endOfDayMs + g.createdAt % 1000)
  | .long_term =>
    match g.dueDate with
    | some d =>
      match g.dueTime with
      | some t => some (d * msPerDay + t)
      | none => some (d * msPerDay + endOfDayMs)
    | none => none

/-- The earlier revision's missed-goal predicate. -/
def isMissedLegacy (now : Int) (g : Goal) : Bool :=
  if g.completed then false
  else
    match missedDeadlineLegacy g with
    | some dl => decide (now > dl)
    | none => false

/-- The earlier revision's per-goal update for a missed goal: mark completed
with `ai_points_earned = 15` (`points_earned` is not touched and keeps its
value). -/
def markMissedLegacy (g : Goal) : Goal :=
  { g with completed := true, aiPointsEarned := 15 }

/-- The earlier Dashboard revision's `handleMissedGoals`: filter the missed
goals by the hard-coded deadline; when any are found, mark each of them
completed with `ai_points_earned = 15` and add `missedGoals.length * 15` to
the profile's AI points. Its per-goal update sets `completed = true`, so the
BEFORE-UPDATE trigger passes each row through unchanged. -/
def handleMissedGoalsLegacy (now : Int) (s : DashboardState) : DashboardState :=
  let missed := s.goals.filter (isMissedLegacy now)
  if missed.length = 0 then s
  else
    { goals := s.goals.map (fun g => if isMissedLegacy now g then markMissedLegacy g else g)
      profile := { s.profile with aiPoints := s.profile.aiPoints + missed.length * 15 } }

/-- Reference predicate transcribed from the spec's `resolveMissed`
operation, for the classification theorem: a goal is missed when it is not
completed and `now` is strictly after its computed deadline — the
configured day-end applied to the creation date for a daily goal, the exact
due instant for a long-term goal with date and time, the day-end applied to
the due date with a date only — and a long-term goal with neither is never
missed (no disjunct applies). -/
def resolveMissedSpec (dayEnd : Option Int × Option Int) (now : Int) (g : Goal) : Prop :=
  g.completed = false ∧
  ((g.goalType = .daily ∧
     ∃ dl, setTimeOfDay g.createdAt dayEnd = some dl ∧ now > dl) ∨
   (g.goalType = .long_term ∧
     ∃ d t, g.dueDate = some d ∧ g.dueTime = some t ∧ now > d * msPerDay + t) ∨
   (g.goalType = .long_term ∧
     ∃ d, g.dueDate = some d ∧ g.dueTime = none ∧
       ∃ dl, setTimeOfDay (d * msPerDay) dayEnd = some dl ∧ now > dl))

/-- Discrete intensity levels of the game loop. -/
inductive IntensityLevel
  | low
  | medium
  | high
  | critical
  deriving DecidableEq, Repr

/-- The pair `calculateIntensity` returns. -/
structure IntensityResult where
  level : IntensityLevel
  value : ℚ
  deriving DecidableEq, Repr

/-- The time-based sub-score of `calculateIntensity`: a step function of the
hours left until end of day (`timeToEOD` in milliseconds). -/
def timeIntensity (timeToEOD : ℚ) : ℚ :=
  let hoursLeft := timeToEOD / (1000 * 60 * 60)
  if hoursLeft < 0.25 then 1
  else if hoursLeft < 0.5 then 0.8
  else if hoursLeft < 1 then 0.6
  else if hoursLeft < 2 then 0.4
  else 0.2

/-- The score-based sub-score of `calculateIntensity`: a step function of
`scoreDiff = userPoints - aiPoints`; losing increases intensity. -/
def scoreIntensity (scoreDiff : Int) : ℚ :=
  if scoreDiff < -20 then 0.8
  else if scoreDiff < -10 then 0.5
  else if scoreDiff < 0 then 0.3
  else 0.1

/-- The discrete level `calculateIntensity` derives from the combined
value. -/
def intensityLevelOf (value : ℚ) : IntensityLevel :=
  if value ≥ 0.8 then .critical
  else if value ≥ 0.5 then .high
  else if value ≥ 0.3 then .medium
  else .low

/-- The function `calculateIntensity` from `useGameLoop`: the weighted combination
`min(1, timeIntensity * 0.6 + scoreIntensity * 0.4)` mapped to a discrete
level. -/
def calculateIntensity (timeToEOD : ℚ) (userPoints aiPoints : Int) : IntensityResult :=
  let value := min 1 (timeIntensity timeToEOD * 0.6 + scoreIntensity (userPoints - aiPoints) * 0.4)
  ⟨intensityLevelOf value, value⟩

/-- The threat-level computation inlined in `useGameLoop`'s derived state:
`min(1, timeTheat * 0.5 + scoreTheat * 0.5)` where `timeTheat` is the
elapsed fraction of a 24-hour day and `scoreTheat` is
`min(1, |scoreDiff| / 50)` when the user is behind, else `0`. -/
def threatLevel (timeToEOD : ℚ) (userPoints aiPoints : Int) : ℚ :=
  let scoreDiff : Int := userPoints - aiPoints
  let timeTheat : ℚ := 1 - timeToEOD / (24 * 60 * 60 * 1000)
  let scoreTheat : ℚ := if scoreDiff < 0 then min 1 ((scoreDiff.natAbs : ℚ) / 50) else 0
  min 1 (timeTheat * 0.5 + scoreTheat * 0.5)

/-- Reference definition transcribed from the specification's
`computeThreatLevel` formula, for the refinement theorem:
`min(1, 0.5 * (1 - timeToBoundary / dayLength) + 0.5 * scoreComponent)`. -/
def computeThreatLevelSpec (timeToBoundary : ℚ) (userPoints aiPoints : Int) : ℚ :=
  let margin : Int := userPoints - aiPoints
  let scoreComponent : ℚ := if margin < 0 then min 1 ((margin.natAbs : ℚ) / 50) else 0
  min 1 (0.5 * (1 - timeToBoundary / (24 * 60 * 60 * 1000)) + 0.5 * scoreComponent)

/-- Reference definition transcribed from the specification's
`computeIntensity` operation, for the refinement theorem: the two step
functions, the combination `min(1, 0.6 * timeSubScore + 0.4 * scoreSubScore)`
and the tier thresholds, inclusive at each tier's lower bound. -/
def computeIntensitySpec (timeToBoundary : ℚ) (userPoints aiPoints : Int) : IntensityResult :=
  let hoursRemaining := timeToBoundary / (1000 * 60 * 60)
  let timeSubScore : ℚ :=
    if hoursRemaining < 0.25 then 1
    else if hoursRemaining < 0.5 then 0.8
    else if hoursRemaining < 1 then 0.6
    else if hoursRemaining < 2 then 0.4
    else 0.2
  let margin : Int := userPoints - aiPoints
  let scoreSubScore : ℚ :=
    if margin < -20 then 0.8
    else if margin < -10 then 0.5
    else if margin < 0 then 0.3
    else 0.1
  let value := min 1 (0.6 * timeSubScore + 0.4 * scoreSubScore)
  let tier : IntensityLevel :=
    if value ≥ 0.8 then .critical
    else if value ≥ 0.5 then .high
    else if value ≥ 0.3 then .medium
    else .low
  ⟨tier, value⟩

/-- Game states of the strategy's classification together with the generic
`active` mode emitted outside the decision function. -/
inductive GameState
  | active
  | userWinning
  | aiWinning
  | tied
  | endOfDay
  | victory
  | defeat
  deriving DecidableEq, Repr

/-- The method `DefaultGameStrategy.getGameState`: at end of day the comparison decides
victory, defeat or the end-of-day tie; otherwise who is winning or a
mid-day tie. -/
def getGameState (userPoints aiPoints : Int) (isEndOfDay : Bool) : GameState :=
  if isEndOfDay then
    if userPoints > aiPoints then .victory
    else if aiPoints > userPoints then .defeat
    else .endOfDay
  else
    if userPoints > aiPoints then .userWinning
    else if aiPoints > userPoints then .aiWinning
    else .tied

/-- The database trigger function `update_streak_on_goal_complete`, run when
a goal flips to completed: `today` is the current day index, yesterday the
previous one. Equality against a `NULL` `last_goal_date` is not true in
SQL, so a profile without a prior completion falls to the reset branch. -/
def update_streak_on_goal_complete (p : Profile) (today : Int) : Profile :=
  let yesterday := today - 1
  if p.lastGoalDate = some yesterday then
    { p with
      currentStreak := p.currentStreak + 1
      longestStreak := max p.longestStreak (p.currentStreak + 1)
      lastGoalDate := some today }
  else if p.lastGoalDate = some today then p
  else
    { p with
      currentStreak := 1
      longestStreak := max p.longestStreak 1
      lastGoalDate := some today }

/-- C1: for every goal and completion instant, `handleCompleteGoal` returns
exactly the point split and outcome of the spec's completion table — 20/−5
early strictly before the boundary, the non-early split at or after it, 5/5
onTime for a daily goal without a due time, 10/0 onTime at or before
end-of-day on a date-only long-term goal and 5/5 late after it, 10/0
noDeadline with neither — so the boundary instant itself always falls in the
non-early branch. -/
theorem handleCompleteGoal_follows_spec_table (g : Goal) (now : Int)
    (r : CompletionResult) (h : resolveCompletionSpec g now = some r) :
    handleCompleteGoal g now = r := by
  rcases g with ⟨gt, dd, dt, ca, c, cat, pe, ape⟩
  cases gt <;> rcases dd with _ | d <;> rcases dt with _ | t <;>
    simp_all [resolveCompletionSpec, handleCompleteGoal]

/-- Witness for C1: scenario A, a daily goal due 18:00 completed at 17:00 on
the same day earns 20 user points, −5 AI points, outcome early. -/
theorem handleCompleteGoal_follows_spec_table_witness :
    handleCompleteGoal ⟨.daily, none, some 64800000, 0, false, none, 0, 0⟩ 61200000
      = ⟨20, -5, .early⟩ :=
  handleCompleteGoal_follows_spec_table _ 61200000 _ (by decide)

/-- C4: `getGameState` classifies by score comparison — victory, defeat or
the end-of-day tie at end of day; userWinning, aiWinning or the mid-day tie
otherwise — and in particular 40 versus 70 at end of day is defeat. -/
theorem getGameState_classification (u a : Int) (e : Bool) :
    ((e = true ∧ u > a) → getGameState u a e = .victory) ∧
    ((e = true ∧ a > u) → getGameState u a e = .defeat) ∧
    ((e = true ∧ u = a) → getGameState u a e = .endOfDay) ∧
    ((e = false ∧ u > a) → getGameState u a e = .userWinning) ∧
    ((e = false ∧ a > u) → getGameState u a e = .aiWinning) ∧
    ((e = false ∧ u = a) → getGameState u a e = .tied) ∧
    getGameState 40 70 true = .defeat := by
  refine ⟨?_, ?_, ?_, ?_, ?_, ?_, by decide⟩ <;> rintro ⟨he, h⟩ <;> subst he <;>
    unfold getGameState <;> split_ifs <;> first | rfl | (exfalso; omega) | simp_all

/-- Witness for C4: a user lead at end of day classifies as victory. -/
theorem getGameState_classification_witness : getGameState 3 2 true = .victory :=
  (getGameState_classification 3 2 true).1 ⟨rfl, by decide⟩

/-- C9: the streak trigger increments the current streak and raises the
longest to the max when the last completion was yesterday, leaves both
unchanged when it was today, resets to 1 (raising the longest to at least 1)
otherwise — including when there is no prior completion — and a streak of 4
with last completion yesterday becomes 5 with the longest at least 5. -/
theorem update_streak_on_goal_complete_cases (p : Profile) (today : Int) :
    (p.lastGoalDate = some (today - 1) →
      (update_streak_on_goal_complete p today).currentStreak = p.currentStreak + 1 ∧
      (update_streak_on_goal_complete p today).longestStreak
        = max p.longestStreak (p.currentStreak + 1)) ∧
    (p.lastGoalDate = some today →
      (update_streak_on_goal_complete p today).currentStreak = p.currentStreak ∧
      (update_streak_on_goal_complete p today).longestStreak = p.longestStreak) ∧
    (p.lastGoalDate ≠ some (today - 1) → p.lastGoalDate ≠ some today →
      (update_streak_on_goal_complete p today).currentStreak = 1 ∧
      (update_streak_on_goal_complete p today).longestStreak = max p.longestStreak 1) ∧
    (p.lastGoalDate = some (today - 1) → p.currentStreak = 4 →
      (update_streak_on_goal_complete p today).currentStreak = 5 ∧
      5 ≤ (update_streak_on_goal_complete p today).longestStreak) := by
  have hne : ¬(today = today - 1) := by omega
  refine ⟨fun h => ?_, fun h => ?_, fun h1 h2 => ?_, fun h h4 => ?_⟩ <;>
    unfold update_streak_on_goal_complete <;> simp_all

/-- Witness for C9: scenario F at a concrete profile — current streak 4,
longest 4, last completion on day 6 — completed on day 7. -/
theorem update_streak_on_goal_complete_cases_witness :
    (update_streak_on_goal_complete ⟨0, 0, none, 4, 4, some 6⟩ 7).currentStreak = 5 ∧
    5 ≤ (update_streak_on_goal_complete ⟨0, 0, none, 4, 4, some 6⟩ 7).longestStreak :=
  (update_streak_on_goal_complete_cases ⟨0, 0, none, 4, 4, some 6⟩ 7).2.2.2 (by decide) rfl

theorem timeIntensity_bounds (t : ℚ) : 0.2 ≤ timeIntensity t ∧ timeIntensity t ≤ 1 := by
  simp only [timeIntensity]
  split_ifs <;> norm_num

theorem scoreIntensity_bounds (m : Int) : 0.1 ≤ scoreIntensity m ∧ scoreIntensity m ≤ 0.8 := by
  simp only [scoreIntensity]
  split_ifs <;> norm_num

/-- C5: `calculateIntensity` equals the spec's `computeIntensity` reference
definition — the two step functions, the weighted combination and the
tier thresholds inclusive at each lower bound — and 10 minutes to the
boundary with equal scores yields value 0.64 and tier high. -/
theorem calculateIntensity_matches_spec (t : ℚ) (u a : Int) (ht : 0 ≤ t) :
    calculateIntensity t u a = computeIntensitySpec t u a ∧
    calculateIntensity 600000 30 30 = ⟨.high, 0.64⟩ := by
  constructor
  · have h : timeIntensity t * 0.6 + scoreIntensity (u - a) * 0.4
        = 0.6 * timeIntensity t + 0.4 * scoreIntensity (u - a) := by ring
    simp only [calculateIntensity]
    rw [h]
    rfl
  · norm_num [calculateIntensity, timeIntensity, scoreIntensity, intensityLevelOf, min_def]

/-- Witness for C5: scenario E evaluated through the refinement theorem at
timeToBoundary 600000 ms. -/
theorem calculateIntensity_matches_spec_witness :
    calculateIntensity 600000 30 30 = computeIntensitySpec 600000 30 30 ∧
    calculateIntensity 600000 30 30 = ⟨.high, 0.64⟩ :=
  calculateIntensity_matches_spec 600000 30 30 (by norm_num)

/-- C10: the combined intensity value always lies in [0.16, 0.92], so the
`min(1, ...)` clamp never alters the result, and both extremes are reached:
0.92 in the critical tier and 0.16 in the low tier. -/
theorem calculateIntensity_value_range (t : ℚ) (u a : Int) (ht : 0 ≤ t) :
    (0.16 ≤ (calculateIntensity t u a).value ∧ (calculateIntensity t u a).value ≤ 0.92) ∧
    (calculateIntensity t u a).value
      = timeIntensity t * 0.6 + scoreIntensity (u - a) * 0.4 ∧
    calculateIntensity 0 0 30 = ⟨.critical, 0.92⟩ ∧
    calculateIntensity (3 * 3600000) 30 0 = ⟨.low, 0.16⟩ := by
  obtain ⟨h1, h2⟩ := timeIntensity_bounds t
  obtain ⟨h3, h4⟩ := scoreIntensity_bounds (u - a)
  have hle : timeIntensity t * 0.6 + scoreIntensity (u - a) * 0.4 ≤ 1 := by linarith
  have hv : (calculateIntensity t u a).value
      = timeIntensity t * 0.6 + scoreIntensity (u - a) * 0.4 := by
    simp only [calculateIntensity]
    exact min_eq_right hle
  refine ⟨⟨?_, ?_⟩, hv, ?_, ?_⟩
  · rw [hv]; linarith
  · rw [hv]; linarith
  · norm_num [calculateIntensity, timeIntensity, scoreIntensity, intensityLevelOf, min_def]
  · norm_num [calculateIntensity, timeIntensity, scoreIntensity, intensityLevelOf, min_def]

/-- Witness for C10: the bounds evaluated at 600000 ms and equal scores. -/
theorem calculateIntensity_value_range_witness :
    0.16 ≤ (calculateIntensity 600000 30 30).value ∧
    (calculateIntensity 600000 30 30).value ≤ 0.92 :=
  (calculateIntensity_value_range 600000 30 30 (by norm_num)).1

/-- Counterexample for C6: with no time left and equal scores the threat
level is 1/2, not zero, although the user is tied. -/
theorem threatLevel_zero_when_tied_counterexample :
    threatLevel 0 30 30 = 1 / 2 ∧ threatLevel 0 30 30 ≠ 0 := by
  constructor <;> norm_num [threatLevel]

theorem scoreTheat_antitone {m m2 : Int} (h : m ≤ m2) :
    (if m2 < 0 then min 1 ((m2.natAbs : ℚ) / 50) else 0)
      ≤ (if m < 0 then min 1 ((m.natAbs : ℚ) / 50) else 0) := by
  split_ifs with hm2 hm hm
  · have hn : m2.natAbs ≤ m.natAbs := by omega
    have hq : ((m2.natAbs : ℚ)) ≤ (m.natAbs : ℚ) := by exact_mod_cast hn
    exact min_le_min (le_refl 1) (by gcongr)
  · omega
  · exact le_min (by norm_num) (by positivity)
  · exact le_refl 0

/-- C6 amended: `threatLevel` equals the spec's `computeThreatLevel`
formula, is monotonically non-decreasing as time elapses and as the user
falls further behind, and the score component vanishes whenever the user is
ahead or tied, the threat then reducing to the pure time component
`min(1, (1 - timeToBoundary/24h) * 0.5)` — which is not zero in general. -/
theorem threatLevel_amended (t t2 : ℚ) (u a u2 a2 : Int) :
    threatLevel t u a = computeThreatLevelSpec t u a ∧
    (t ≤ t2 → threatLevel t2 u a ≤ threatLevel t u a) ∧
    (u - a ≤ u2 - a2 → threatLevel t u2 a2 ≤ threatLevel t u a) ∧
    (a ≤ u → threatLevel t u a = min 1 ((1 - t / (24 * 60 * 60 * 1000)) * 0.5)) := by
  refine ⟨?_, fun h => ?_, fun h => ?_, fun h => ?_⟩
  · simp only [threatLevel, computeThreatLevelSpec]
    congr 1
    ring
  · simp only [threatLevel]
    refine min_le_min (le_refl 1) ?_
    have hd : t / (24 * 60 * 60 * 1000 : ℚ) ≤ t2 / (24 * 60 * 60 * 1000 : ℚ) := by gcongr
    linarith
  · simp only [threatLevel]
    refine min_le_min (le_refl 1) ?_
    have hs := @scoreTheat_antitone (u - a) (u2 - a2) h
    linarith
  · simp only [threatLevel]
    rw [if_neg (by omega)]
    norm_num

/-- Witness for C6 amended: the monotonicity and tied-case conjuncts at
concrete inputs. -/
theorem threatLevel_amended_witness :
    threatLevel 200 5 3 ≤ threatLevel 100 5 3 ∧
    threatLevel 100 5 3 ≤ threatLevel 100 0 7 ∧
    threatLevel 100 5 3 = min 1 ((1 - 100 / (24 * 60 * 60 * 1000)) * 0.5) :=
  ⟨(threatLevel_amended 100 200 5 3 0 7).2.1 (by norm_num),
   (threatLevel_amended 100 100 0 7 5 3).2.2.1 (by decide),
   (threatLevel_amended 100 100 5 3 0 7).2.2.2 (by decide)⟩

/-- Counterexample for C7: at the instant of the boundary itself (23:00 on
day 0 with `dayEndTime = "23:00"`), the computation has already rolled the
boundary to the next day and returns a full day, never zero. -/
theorem calculateTimeToEOD_zero_window_counterexample :
    calculateTimeToEOD ("23:00") 82800000 = some 86400000 ∧
    calculateTimeToEOD ("23:00") 82800000 ≠ some 0 := by
  constructor <;> decide

theorem jsToNumber_nonneg {s : List Char} {v : Int} (h : jsToNumber s = some v) : 0 ≤ v := by
  unfold jsToNumber at h
  split_ifs at h
  · simp at h
    omega
  · rcases hm : s.mapM digitVal with _ | ds <;> rw [hm] at h <;> simp at h
    omega

theorem parseDayBoundary_nonneg {s : String} {h m : Int}
    (hp : parseDayBoundary s = (some h, some m)) : 0 ≤ h ∧ 0 ≤ m := by
  unfold parseDayBoundary at hp
  rcases hsp : splitOnColon s.data with _ | ⟨x, _ | ⟨y, rest⟩⟩ <;> rw [hsp] at hp <;>
    simp only [Prod.mk.injEq] at hp
  · exact absurd hp.1 (by simp)
  · exact absurd hp.2 (by simp)
  · exact ⟨jsToNumber_nonneg hp.1, jsToNumber_nonneg hp.2⟩

/-- C7 amended: on a boundary setting that parses, `calculateTimeToEOD`
returns `max(0, boundaryInstant - now)` where the boundary is first rolled
to the next calendar day when it is not strictly after `now`; the result is
never negative and in fact always strictly positive — the rolling happens
inside the computation itself, so no instant yields zero. -/
theorem calculateTimeToEOD_amended (s : String) (now e : Int)
    (hb : setTimeOfDay now (parseDayBoundary s) = some e) :
    calculateTimeToEOD s now
      = some (max 0 ((if e ≤ now then e + msPerDay else e) - now)) ∧
    ∀ r, calculateTimeToEOD s now = some r → 0 < r := by
  obtain ⟨hh, mm, hp, he⟩ : ∃ hh mm, parseDayBoundary s = (some hh, some mm) ∧
      e = now / msPerDay * msPerDay + hh * 3600000 + mm * 60000 := by
    unfold setTimeOfDay at hb
    rcases hpb : parseDayBoundary s with ⟨_ | h1, _ | m1⟩ <;> rw [hpb] at hb <;>
      simp only [Option.some.injEq, reduceCtorEq] at hb
    exact ⟨h1, m1, rfl, hb.symm⟩
  obtain ⟨hh0, mm0⟩ := parseDayBoundary_nonneg hp
  have hcalc : calculateTimeToEOD s now
      = some (max 0 ((if e ≤ now then e + msPerDay else e) - now)) := by
    unfold calculateTimeToEOD
    rw [hb]
  refine ⟨hcalc, fun r hr => ?_⟩
  rw [hcalc] at hr
  simp only [Option.some.injEq] at hr
  have hfloor : now - now / msPerDay * msPerDay < msPerDay := by
    simp only [msPerDay]
    omega
  rw [← hr]
  rcases le_or_lt e now with hc | hc
  · rw [if_pos hc]
    simp only [msPerDay] at *
    omega
  · rw [if_neg (not_le.mpr hc)]
    omega

/-- Witness for C7 amended: one hour into day 0 with boundary 23:00 the
result is the positive 22 hours. -/
theorem calculateTimeToEOD_amended_witness :
    calculateTimeToEOD ("23:00") 3600000
      = some (max 0 ((if (82800000 : Int) ≤ 3600000 then 82800000 + msPerDay
                      else 82800000) - 3600000)) ∧
    (0 : Int) < 79200000 :=
  ⟨(calculateTimeToEOD_amended ("23:00") 3600000 82800000 (by decide)).1,
   (calculateTimeToEOD_amended ("23:00") 3600000 82800000 (by decide)).2 79200000 (by decide)⟩

/-- Counterexample for C8: a malformed day-boundary string is silently
absorbed, not rejected — `calculateTimeToEOD` returns the NaN value instead
of failing, and the sweep silently classifies a five-days-overdue daily goal
as not missed, while the same goal is missed under a well-formed setting. -/
theorem invalidConfiguration_counterexample :
    calculateTimeToEOD ("ab:10") 0 = none ∧
    isMissed (parseDayBoundary ("ab:10")) (5 * msPerDay)
      ⟨.daily, none, none, 0, false, none, 0, 0⟩ = false ∧
    isMissed (parseDayBoundary ("23:59")) (5 * msPerDay)
      ⟨.daily, none, none, 0, false, none, 0, 0⟩ = true := by
  refine ⟨by decide, by decide, by decide⟩

theorem setTimeOfDay_none {hm : Option Int × Option Int} (t : Int)
    (h : hm.1 = none ∨ hm.2 = none) : setTimeOfDay t hm = none := by
  rcases hm with ⟨_ | h1, _ | m1⟩ <;> simp_all [setTimeOfDay]

/-- C8 amended: a malformed day-boundary string is never rejected with an
error — the parse yields NaN, `calculateTimeToEOD` evaluates to the NaN
value, and every goal whose deadline depends on the setting (daily, or
long-term without a due time) is silently never classified missed; the
documented default `"23:59"` is used by the sweep exactly when the setting
is entirely absent. -/
theorem invalidConfiguration_amended (s : String) (now : Int)
    (h : (parseDayBoundary s).1 = none ∨ (parseDayBoundary s).2 = none) :
    calculateTimeToEOD s now = none ∧
    (∀ g : Goal, g.goalType = .daily → isMissed (parseDayBoundary s) now g = false) ∧
    (∀ g : Goal, g.dueTime = none → isMissed (parseDayBoundary s) now g = false) ∧
    (∀ st : DashboardState, st.profile.dayEndTime = none →
      handleMissedGoals now st
        = handleMissedGoalsCore (parseDayBoundary ("23:59")) now st) := by
  refine ⟨?_, fun g hg => ?_, fun g hg => ?_, fun st hst => ?_⟩
  · unfold calculateTimeToEOD
    rw [setTimeOfDay_none now h]
  · simp only [isMissed, missedDeadline, hg, setTimeOfDay_none g.createdAt h]
    split <;> rfl
  · rcases hgt : g.goalType with _ | _
    · simp only [isMissed, missedDeadline, hgt, setTimeOfDay_none g.createdAt h]
      split <;> rfl
    · rcases hdd : g.dueDate with _ | d
      · simp only [isMissed, missedDeadline, hgt, hdd]
        split <;> rfl
      · simp only [isMissed, missedDeadline, hgt, hdd, hg, setTimeOfDay_none (d * msPerDay) h]
        split <;> rfl
  · unfold handleMissedGoals
    rw [hst]
    rfl

/-- Witness for C8 amended: the malformed string `"ab:10"` at a concrete
instant and goal. -/
theorem invalidConfiguration_amended_witness :
    calculateTimeToEOD ("ab:10") 123 = none ∧
    isMissed (parseDayBoundary ("ab:10")) 123
      ⟨.daily, none, none, 0, false, none, 0, 0⟩ = false :=
  ⟨(invalidConfiguration_amended ("ab:10") 123 (by decide)).1,
   (invalidConfiguration_amended ("ab:10") 123 (by decide)).2.1 _ rfl⟩

theorem isMissed_false_of_completed {dayEnd : Option Int × Option Int} {now : Int}
    {x : Goal} (hx : x.completed = true) : isMissed dayEnd now x = false := by
  unfold isMissed
  rw [hx]
  rfl

theorem isMissed_iff_deadline {dayEnd : Option Int × Option Int} {now : Int} {g : Goal} :
    isMissed dayEnd now g = true
      ↔ (g.completed = false ∧ ∃ dl, missedDeadline dayEnd g = some dl ∧ now > dl) := by
  unfold isMissed
  rcases hc : g.completed
  · rcases hmd : missedDeadline dayEnd g with _ | dl <;> simp [hc, hmd]
  · simp [hc]

theorem process_missed_goal_of_isMissed {dayEnd : Option Int × Option Int} {now : Int}
    {g : Goal} (h : isMissed dayEnd now g = true) :
    process_missed_goal dayEnd now g
      = ({ g with completed := true, completedAt := some now,
                  pointsEarned := 0, aiPointsEarned := 15 }, 15) := by
  obtain ⟨hc, dl, hmd, hdl⟩ := isMissed_iff_deadline.mp h
  unfold process_missed_goal
  rw [hmd]
  simp [hc, hdl]

theorem sum_of_increments {dayEnd : Option Int × Option Int} {now : Int}
    (l : List Goal) (h : ∀ x ∈ l, isMissed dayEnd now x = true) :
    (l.map (fun g => (process_missed_goal dayEnd now g).2)).sum = 15 * (l.length : Int) := by
  induction l with
  | nil => simp
  | cons a t ih =>
    have ha := process_missed_goal_of_isMissed (h a (by simp))
    have ht := ih (fun x hx => h x (by simp [hx]))
    simp only [List.map_cons, List.sum_cons, List.length_cons, ha, ht]
    push_cast
    ring

/-- C2: the sweep classifies a goal as missed exactly when it is not
completed and `now` is strictly after its computed deadline (configured
day-end on the creation date for daily; the exact instant with date and
time; day-end on the due date with date only; never with neither), and
every missed goal is stored — via the BEFORE-UPDATE trigger fired by the
sweep's touch — as completed with `points_earned = 0` and
`ai_points_earned = 15`, the profile's AI total rising by 15 per missed
goal. -/
theorem handleMissedGoals_resolves_missed (dayEnd : Option Int × Option Int)
    (now : Int) (g : Goal) (s : DashboardState) :
    (isMissed dayEnd now g = true ↔ resolveMissedSpec dayEnd now g) ∧
    (isMissed dayEnd now g = true →
      process_missed_goal dayEnd now g
        = ({ g with completed := true, completedAt := some now,
                    pointsEarned := 0, aiPointsEarned := 15 }, 15)) ∧
    ((handleMissedGoals now s).1.profile.aiPoints
      = s.profile.aiPoints
        + 15 * ((s.goals.filter
            (isMissed (parseDayBoundary (s.profile.dayEndTime.getD ("23:59"))) now)).length : Int)) ∧
    (g ∈ s.goals →
      isMissed (parseDayBoundary (s.profile.dayEndTime.getD ("23:59"))) now g = true →
      { g with completed := true, completedAt := some now,
               pointsEarned := 0, aiPointsEarned := 15 } ∈ (handleMissedGoals now s).1.goals) := by
  refine ⟨?_, fun h => process_missed_goal_of_isMissed h, ?_, fun hg hmg => ?_⟩
  · rw [isMissed_iff_deadline]
    unfold resolveMissedSpec
    rcases g with ⟨gt, dd, dt, ca, c, cat, pe, ape⟩
    rcases gt <;> rcases dd with _ | d <;> rcases dt with _ | t <;>
      simp [missedDeadline]
  · set de := parseDayBoundary (s.profile.dayEndTime.getD ("23:59")) with hde
    show (handleMissedGoalsCore de now s).1.profile.aiPoints = _
    unfold handleMissedGoalsCore
    rcases hlen : (s.goals.filter (isMissed de now)).length with _ | n
    · simp [hlen]
    · simp only [hlen, Nat.succ_ne_zero, if_false]
      have hsum := sum_of_increments (s.goals.filter (isMissed de now))
        (fun x hx => (List.mem_filter.mp hx).2)
      simp only [hsum, hlen]
  · set de := parseDayBoundary (s.profile.dayEndTime.getD ("23:59")) with hde
    show _ ∈ (handleMissedGoalsCore de now s).1.goals
    unfold handleMissedGoalsCore
    have hne : (s.goals.filter (isMissed de now)).length ≠ 0 := by
      intro h0
      rw [List.length_eq_zero] at h0
      have : g ∈ s.goals.filter (isMissed de now) := List.mem_filter.mpr ⟨hg, hmg⟩
      simp [h0] at this
    rw [if_neg hne]
    refine List.mem_map.mpr ⟨g, hg, ?_⟩
    rw [if_pos hmg, process_missed_goal_of_isMissed hmg]

/-- Witness for C2: a daily goal created on day 0, never completed, swept
two days later with `day_end_time = "23:59"` — it is classified missed, the
trigger stores it completed with 0/15, and the AI total rises from 0 to
15. -/
theorem handleMissedGoals_resolves_missed_witness :
    process_missed_goal (parseDayBoundary ("23:59")) (2 * msPerDay)
      ⟨.daily, none, none, 0, false, none, 0, 0⟩
      = (⟨.daily, none, none, 0, true, some (2 * msPerDay), 0, 15⟩, 15) ∧
    (handleMissedGoals (2 * msPerDay)
      ⟨[⟨.daily, none, none, 0, false, none, 0, 0⟩],
       ⟨0, 0, some ("23:59"), 0, 0, none⟩⟩).1.profile.aiPoints = 0 + 15 * 1 ∧
    (⟨.daily, none, none, 0, true, some (2 * msPerDay), 0, 15⟩ : Goal)
      ∈ (handleMissedGoals (2 * msPerDay)
          ⟨[⟨.daily, none, none, 0, false, none, 0, 0⟩],
           ⟨0, 0, some ("23:59"), 0, 0, none⟩⟩).1.goals :=
  ⟨(handleMissedGoals_resolves_missed (parseDayBoundary ("23:59")) (2 * msPerDay)
      ⟨.daily, none, none, 0, false, none, 0, 0⟩
      ⟨[⟨.daily, none, none, 0, false, none, 0, 0⟩],
       ⟨0, 0, some ("23:59"), 0, 0, none⟩⟩).2.1 (by decide),
   by
    have h := (handleMissedGoals_resolves_missed (parseDayBoundary ("23:59")) (2 * msPerDay)
      ⟨.daily, none, none, 0, false, none, 0, 0⟩
      ⟨[⟨.daily, none, none, 0, false, none, 0, 0⟩],
       ⟨0, 0, some ("23:59"), 0, 0, none⟩⟩).2.2.1
    rw [h]
    decide,
   (handleMissedGoals_resolves_missed (parseDayBoundary ("23:59")) (2 * msPerDay)
      ⟨.daily, none, none, 0, false, none, 0, 0⟩
      ⟨[⟨.daily, none, none, 0, false, none, 0, 0⟩],
       ⟨0, 0, some ("23:59"), 0, 0, none⟩⟩).2.2.2 (by simp) (by decide)⟩

/-- Counterexample for C3: invoking the sweep on a goal that is already
completed (here one already marked missed, `ai_points_earned = 15`) silently
does nothing — the goal is classified not missed, the trigger returns the
row unchanged with no award, the state comes back unchanged with no toast,
and no error of any kind is produced, in either revision of the handler. -/
theorem completed_goal_sweep_silent_counterexample :
    isMissed (parseDayBoundary ("23:59")) (2 * msPerDay)
      ⟨.daily, none, none, 0, true, some 100, 0, 15⟩ = false ∧
    process_missed_goal (parseDayBoundary ("23:59")) (2 * msPerDay)
      ⟨.daily, none, none, 0, true, some 100, 0, 15⟩
      = (⟨.daily, none, none, 0, true, some 100, 0, 15⟩, 0) ∧
    handleMissedGoals (2 * msPerDay)
      ⟨[⟨.daily, none, none, 0, true, some 100, 0, 15⟩], ⟨0, 15, some ("23:59"), 0, 0, none⟩⟩
      = (⟨[⟨.daily, none, none, 0, true, some 100, 0, 15⟩], ⟨0, 15, some ("23:59"), 0, 0, none⟩⟩,
         none) ∧
    handleMissedGoalsLegacy (2 * msPerDay)
      ⟨[⟨.daily, none, none, 0, true, some 100, 0, 15⟩], ⟨0, 15, some ("23:59"), 0, 0, none⟩⟩
      = ⟨[⟨.daily, none, none, 0, true, some 100, 0, 15⟩], ⟨0, 15, some ("23:59"), 0, 0, none⟩⟩ := by
  refine ⟨by decide, by decide, by decide, by decide⟩

/-- C3 amended: a goal whose completed flag is already true is silently
excluded from the missed set by both revisions of the sweep, and the
BEFORE-UPDATE trigger returns an already-completed row unchanged with a
zero award — no `PreconditionViolation` or any other error exists in the
code — so a sweep over only-completed goals does nothing at all and no
second 15-point award or record mutation can reach that goal. -/
theorem completed_goal_never_reawarded (g : Goal) (dayEnd : Option Int × Option Int)
    (now : Int) (h : g.completed = true) :
    isMissed dayEnd now g = false ∧
    isMissedLegacy now g = false ∧
    process_missed_goal dayEnd now g = (g, 0) ∧
    (∀ st : DashboardState, (∀ x ∈ st.goals, x.completed = true) →
      handleMissedGoals now st = (st, none)) ∧
    (∀ st : DashboardState, g ∈ st.goals →
      g ∈ (handleMissedGoals now st).1.goals ∧
      g ∈ (handleMissedGoalsLegacy now st).goals) := by
  have hm : ∀ de : Option Int × Option Int, isMissed de now g = false :=
    fun de => isMissed_false_of_completed h
  have hml : isMissedLegacy now g = false := by
    unfold isMissedLegacy
    rw [h]
    rfl
  refine ⟨hm dayEnd, hml, ?_, fun st hall => ?_, fun st hmem => ⟨?_, ?_⟩⟩
  · unfold process_missed_goal
    rw [h]
    rfl
  · have hfil : st.goals.filter
        (isMissed (parseDayBoundary (st.profile.dayEndTime.getD ("23:59"))) now) = [] := by
      rw [List.filter_eq_nil_iff]
      intro x hx
      rw [isMissed_false_of_completed (hall x hx)]
      simp
    show handleMissedGoalsCore _ now st = (st, none)
    unfold handleMissedGoalsCore
    rw [hfil]
    rfl
  · set de := parseDayBoundary (st.profile.dayEndTime.getD ("23:59")) with hde
    show g ∈ (handleMissedGoalsCore de now st).1.goals
    simp only [handleMissedGoalsCore]
    split
    · exact hmem
    · exact List.mem_map.mpr ⟨g, hmem, by rw [hm de]; rfl⟩
  · simp only [handleMissedGoalsLegacy]
    split
    · exact hmem
    · exact List.mem_map.mpr ⟨g, hmem, by rw [hml]; rfl⟩

/-- Witness for C3 amended: a concrete completed goal at a concrete sweep
instant and state. -/
theorem completed_goal_never_reawarded_witness :
    isMissed (parseDayBoundary ("23:59")) 999
      ⟨.daily, none, none, 0, true, some 50, 5, 5⟩ = false ∧
    handleMissedGoals 999
      ⟨[⟨.daily, none, none, 0, true, some 50, 5, 5⟩], ⟨5, 5, none, 0, 0, none⟩⟩
      = (⟨[⟨.daily, none, none, 0, true, some 50, 5, 5⟩], ⟨5, 5, none, 0, 0, none⟩⟩, none) :=
  ⟨(completed_goal_never_reawarded ⟨.daily, none, none, 0, true, some 50, 5, 5⟩
      (parseDayBoundary ("23:59")) 999 rfl).1,
   (completed_goal_never_reawarded ⟨.daily, none, none, 0, true, some 50, 5, 5⟩
      (parseDayBoundary ("23:59")) 999 rfl).2.2.2.1
      ⟨[⟨.daily, none, none, 0, true, some 50, 5, 5⟩], ⟨5, 5, none, 0, 0, none⟩⟩
      (by intro x hx; simp at hx; rw [hx])⟩

end GoalGame
